import Mathlib

/-!
Shallow embedding of the `eo-llm-disaster` news-analysis pipeline.

The embedding follows the source files of the repository:
  * `src/eo_disaster_analyzer/llm/schemas.py`   — `Location`, `DisasterEvent`
    (pydantic models; validation of raw structured-output responses),
  * `src/eo_disaster_analyzer/data/providers.py` — `fetch_disaster_news`,
  * `src/eo_disaster_analyzer/data/extractors.py` — `extract_entities_from_text`,
  * `src/eo_disaster_analyzer/llm/prompts.py`   — the two prompt templates,
  * `src/eo_disaster_analyzer/llm/clients.py`   — `get_llm_client` and
    `run_news_analysis_pipeline`.

External collaborators (Google News provider, spaCy tagger, OpenAI backend)
are modelled as function-valued parameters; a batch call to the language
model either fails as a whole (langchain `batch` raising, caught by the
pipeline) or returns one reply per request in request order, which is the
langchain contract the source relies on.  Floats are modelled as rationals;
the network calls of the pipeline are recorded in an event trace so that claims
about call order ("before any network activity", "extraction never
invoked") are statable.
-/

namespace EoDisaster

/-- Lowercase a string character by character (model of Python `str.lower`). -/
def lowerString (s : String) : String := ⟨s.data.map Char.toLower⟩

/-- Substring containment on strings (model of Python `needle in hay`). -/
def strContains (hay needle : String) : Bool :=
  (List.range (hay.data.length + 1)).any fun i => needle.data.isPrefixOf (hay.data.drop i)

/-- The relevance test of `run_news_analysis_pipeline`:
Python `"relevant" in result.lower()`. -/
def containsRelevant (result : String) : Bool := strContains (lowerString result) "relevant"

/-- `schemas.Location` after successful pydantic validation: `name` is
required, the other fields are optional. -/
structure Location where
  name : String
  country : Option String
  latitude : Option ℚ
  longitude : Option ℚ
deriving DecidableEq, Repr

/-- A raw structured-output response for a location, before validation:
every field may be absent. -/
structure RawLocation where
  name : Option String
  country : Option String
  latitude : Option ℚ
  longitude : Option ℚ
deriving DecidableEq, Repr

/-- `schemas.DisasterEvent` after successful pydantic validation.
`title`, `is_disaster_related`, `summary` and `confidence` are required
(`Field(...)`), `locations` defaults to `[]` (`default_factory=list`), the
rest default to `None`. -/
structure DisasterEvent where
  title : String
  is_disaster_related : Bool
  disaster_type : Option String
  locations : List Location
  summary : String
  event_date : Option String
  casualties : Option String
  confidence : ℚ
  source_url : Option String
deriving DecidableEq, Repr

/-- A raw structured-output response for a `DisasterEvent`, before
validation: every field may be absent. -/
structure RawDisasterEvent where
  title : Option String
  is_disaster_related : Option Bool
  disaster_type : Option String
  locations : Option (List RawLocation)
  summary : Option String
  event_date : Option String
  casualties : Option String
  confidence : Option ℚ
  source_url : Option String
deriving DecidableEq, Repr

/-- Pydantic validation of a raw location: `name` is required, everything
else passes through. -/
def Location.validate (raw : RawLocation) : Option Location :=
  match raw.name with
  | some n => some ⟨n, raw.country, raw.latitude, raw.longitude⟩
  | none => none

/-- Validate a whole batch: the batch succeeds only if every item
validates (a pydantic `ValidationError` on any item aborts the langchain
batch call). -/
def optionBatch (f : α → Option β) : List α → Option (List β)
  | [] => some []
  | a :: tl =>
    match f a, optionBatch f tl with
    | some b, some bs => some (b :: bs)
    | _, _ => none

/-- Pydantic validation of a raw `DisasterEvent` response: the four
required fields must be present, `confidence` must satisfy the
`ge=0.0, le=1.0` bounds (out of range is rejected, not clamped),
`locations` defaults to the empty list, optional fields pass through. -/
def DisasterEvent.validate (raw : RawDisasterEvent) : Option DisasterEvent :=
  match raw.title, raw.is_disaster_related, raw.summary, raw.confidence with
  | some t, some flag, some s, some c =>
    if 0 ≤ c ∧ c ≤ 1 then
      match optionBatch Location.validate (raw.locations.getD []) with
      | some locs =>
        some ⟨t, flag, raw.disaster_type, locs, s, raw.event_date, raw.casualties, c,
              raw.source_url⟩
      | none => none
    else none
  | _, _, _, _ => none

/-- An article record as built by `fetch_disaster_news`. -/
structure Article where
  title : String
  link : String
  published : String
  summary : String
deriving DecidableEq, Repr

/-- Outcome of the `pygooglenews` search call: either a list of entries or
an exception inside `fetch_disaster_news`. -/
inductive ProviderOutcome where
  | entries (articles : List Article)
  | failure
deriving Inhabited

/-- `providers.fetch_disaster_news`: on success, keep the first
`max_results` entries; any exception is swallowed and yields `[]`. -/
def fetch_disaster_news (provider : String → String → ProviderOutcome)
    (query period : String) (max_results : ℕ) : List Article :=
  match provider query period with
  | ProviderOutcome.entries l => l.take max_results
  | ProviderOutcome.failure => []

/-- One spaCy entity: its label and its text. -/
structure SpacyEnt where
  label : String
  text : String
deriving DecidableEq, Repr

/-- The loaded spaCy model, abstracted to the entity sequence it yields on
a document, in document order. -/
structure Tagger where
  ents : String → List SpacyEnt

/-- The mapping returned by `extract_entities_from_text`: exactly the keys
`locations`, `dates`, `events`. -/
structure Entities where
  locations : List String
  dates : List String
  events : List String
deriving DecidableEq, Repr

/-- One iteration of the `for ent in doc.ents` loop of
`extract_entities_from_text`. -/
def entityStep (acc : Entities) (ent : SpacyEnt) : Entities :=
  if ent.label = "GPE" ∨ ent.label = "LOC" then
    { acc with locations := acc.locations ++ [ent.text] }
  else if ent.label = "DATE" then
    { acc with dates := acc.dates ++ [ent.text] }
  else if ent.label = "EVENT" then
    { acc with events := acc.events ++ [ent.text] }
  else acc

/-- `extractors.extract_entities_from_text`: when the spaCy model failed
to load (`nlp = None`) the empty mapping is returned; otherwise the
entities are accumulated label by label. -/
def extract_entities_from_text (nlp : Option Tagger) (text : String) : Entities :=
  match nlp with
  | none => ⟨[], [], []⟩
  | some tagger => (tagger.ents text).foldl entityStep ⟨[], [], []⟩

/-- Python `", ".join`-style rendering of a list inserted into a prompt. -/
def renderList (l : List String) : String := String.intercalate ", " l

/-- `prompts.CLASSIFY_RELEVANCE_PROMPT` with `title` and `summary`
substituted. -/
def CLASSIFY_RELEVANCE_PROMPT (title summary : String) : String :=
  "\nYou are a news screener. Your task is to determine if a news article is about a specific, ongoing or recent natural disaster event (like a flood, wildfire, earthquake).\n\n- Respond with relevant if it is about a specific event.\n- Respond with irrelevant if it is a general news story, a political story, a historical event, or not about a natural disaster.\n\nArticle Title: "
    ++ title ++ "\nArticle Summary: " ++ summary ++ "\n\nIs this article relevant?\n"

/-- `prompts.ANALYZE_ARTICLE_PROMPT` with `title`, `summary` and the three
entity lists substituted. -/
def ANALYZE_ARTICLE_PROMPT (title summary : String) (e : Entities) : String :=
  "\nYou are an expert analyst specializing in identifying natural disasters from news reports.\nYour task is to analyze the provided news article and determine if it describes a specific, recent natural disaster event.\n\nNews Article Title:\n"
    ++ title ++ "\n\nNews Article Summary:\n" ++ summary
    ++ "\n\nEntities extracted by NLP:\nLocations: " ++ renderList e.locations
    ++ " \nDates: " ++ renderList e.dates ++ " \nEvents: " ++ renderList e.events
    ++ "\n\nBased on the information above, please provide a structured analysis.\n"

/-- The deterministic stubbed language-model backend: a free-text
completion per prompt, a raw structured response per prompt, and two flags
saying whether the corresponding langchain batch call raises. -/
structure Backend where
  complete : String → String
  classifyFails : Bool
  extractStructured : String → RawDisasterEvent
  extractFails : Bool

/-- `clients.get_llm_client` at the process level: if the client cache is
already populated it is reused without touching the configuration;
otherwise a missing/empty `OPENAI_API_KEY` raises `ValueError` and a
present key populates the cache.  Returns the new cache state. -/
def get_llm_client (cacheLoaded : Bool) (apiKey : String) : Except String Bool :=
  if cacheLoaded then Except.ok true
  else if apiKey = "" then Except.error "Missing OPENAI_API_KEY in environment."
  else Except.ok true

/-- The pre-filtering step of `run_news_analysis_pipeline`: the relevance
replies are zipped positionally with the articles and an article is kept
when its reply passes `containsRelevant`. -/
def classify_relevance (backend : Backend) (articles : List Article) : List Article :=
  ((articles.zip (articles.map fun a =>
      backend.complete (CLASSIFY_RELEVANCE_PROMPT a.title a.summary))).filter
    fun p => containsRelevant p.2).map Prod.fst

/-- The augmented extraction prompt for one relevant article:
`{**article, **entities}` formatted through `ANALYZE_ARTICLE_PROMPT`, the
entities coming from the tagger on `f"{title}. {summary}"`. -/
def analyze_input_prompt (nlp : Option Tagger) (article : Article) : String :=
  ANALYZE_ARTICLE_PROMPT article.title article.summary
    (extract_entities_from_text nlp (article.title ++ ". " ++ article.summary))

/-- The structured-extraction batch of `run_news_analysis_pipeline`: one
raw response per relevant article, each validated against the
`DisasterEvent` schema; `none` models the batch call raising. -/
def extraction_stage (backend : Backend) (nlp : Option Tagger)
    (relevant_articles : List Article) : Option (List DisasterEvent) :=
  optionBatch DisasterEvent.validate
    ((relevant_articles.map (analyze_input_prompt nlp)).map backend.extractStructured)

/-- The external calls the pipeline can issue, in order of occurrence. -/
inductive NetworkCall where
  | providerFetch
  | classifyBatch
  | extractBatch
deriving DecidableEq, Repr

/-- Everything the pipeline model collaborates with: the news provider,
the optional spaCy tagger, the language-model backend and the configured
API key. -/
structure PipelineEnv where
  provider : String → String → ProviderOutcome
  nlp : Option Tagger
  backend : Backend
  apiKey : String

/-- Result of one pipeline invocation: the returned value (or the
propagated configuration error), the client-cache state after the call,
and the trace of external calls issued. -/
structure RunOutcome where
  result : Except String (List (DisasterEvent × Article))
  cache : Bool
  calls : List NetworkCall

/-- `clients.run_news_analysis_pipeline`, step for step: fetch, early
return on no articles, client initialization (the configuration check),
relevance batch (failure caught, `[]` returned), early return on no
relevant articles, extraction batch (failure caught, `[]` returned),
final confirmation filter on `is_disaster_related` over the positional
pairing of events with their relevant articles. -/
def run_news_analysis_pipeline (env : PipelineEnv) (cacheLoaded : Bool)
    (query period : String) (max_results : ℕ) : RunOutcome :=
  let articles := fetch_disaster_news env.provider query period max_results
  if articles.isEmpty then
    ⟨Except.ok [], cacheLoaded, [NetworkCall.providerFetch]⟩
  else
    match get_llm_client cacheLoaded env.apiKey with
    | Except.error e => ⟨Except.error e, cacheLoaded, [NetworkCall.providerFetch]⟩
    | Except.ok llmLoaded =>
      if env.backend.classifyFails then
        ⟨Except.ok [], llmLoaded, [NetworkCall.providerFetch, NetworkCall.classifyBatch]⟩
      else
        let relevant_articles := classify_relevance env.backend articles
        if relevant_articles.isEmpty then
          ⟨Except.ok [], llmLoaded, [NetworkCall.providerFetch, NetworkCall.classifyBatch]⟩
        else if env.backend.extractFails then
          ⟨Except.ok [], llmLoaded,
            [NetworkCall.providerFetch, NetworkCall.classifyBatch, NetworkCall.extractBatch]⟩
        else
          match extraction_stage env.backend env.nlp relevant_articles with
          | none =>
            ⟨Except.ok [], llmLoaded,
              [NetworkCall.providerFetch, NetworkCall.classifyBatch, NetworkCall.extractBatch]⟩
          | some disaster_events =>
            ⟨Except.ok ((disaster_events.zip relevant_articles).filter
                fun p => p.1.is_disaster_related),
              llmLoaded,
              [NetworkCall.providerFetch, NetworkCall.classifyBatch, NetworkCall.extractBatch]⟩

/-! ### Concrete fixtures

Small closed inputs used to evaluate the model on the scenarios of the
specification (stub provider, stub backend). -/

/-- A provider stub returning a fixed article list for every query. -/
def demoProvider (arts : List Article) : String → String → ProviderOutcome :=
  fun _ _ => ProviderOutcome.entries arts

/-- Scenario D article: a genuine flood story. -/
def artFlood : Article :=
  ⟨"Flood hits coastal town", "https://example.com/flood", "Mon, 01 Jan 2025",
   "A severe flood hit the coastal town overnight."⟩

/-- A non-disaster article. -/
def artSports : Article :=
  ⟨"Local team wins cup", "https://example.com/cup", "Mon, 01 Jan 2025",
   "The local team won the championship."⟩

/-- A second disaster article. -/
def artQuake : Article :=
  ⟨"Earthquake shakes region", "https://example.com/quake", "Tue, 02 Jan 2025",
   "A strong earthquake shook the region."⟩

/-- A well-formed raw extraction response with `is_disaster_related=true`. -/
def rawEventTrue : RawDisasterEvent :=
  ⟨some "Flood hits coastal town", some true, some "Flood",
   some [⟨some "coastal town", none, none, none⟩],
   some "A flood hit the coastal town.", none, none, some 1,
   some "https://example.com/flood"⟩

/-- The `DisasterEvent` that `rawEventTrue` validates to. -/
def eventTrue : DisasterEvent :=
  ⟨"Flood hits coastal town", true, some "Flood", [⟨"coastal town", none, none, none⟩],
   "A flood hit the coastal town.", none, none, 1, some "https://example.com/flood"⟩

/-- A well-formed raw extraction response with `is_disaster_related=false`. -/
def rawEventFalse : RawDisasterEvent :=
  ⟨some "Local team wins cup", some false, none, none,
   some "Not a disaster story.", none, none, some 0, none⟩

/-- A raw extraction response whose confidence `3/2` lies outside `[0, 1]`
(the stub of the specification returning `1.5`). -/
def overconfidentResponse : RawDisasterEvent :=
  ⟨some "Flood hits coastal town", some true, some "Flood", some [],
   some "A flood hit the coastal town.", none, none, some (3/2), none⟩

/-- Scenario C environment: two articles, classifier says relevant,
extraction backend always reports `is_disaster_related=false`. -/
def envScenC : PipelineEnv :=
  ⟨demoProvider [artFlood, artQuake], none,
   ⟨fun _ => "relevant", false, fun _ => rawEventFalse, false⟩, "sk-test"⟩

/-- Scenario D environment: one flood article, classifier says relevant,
extraction backend returns a confirmed flood event. -/
def envScenD : PipelineEnv :=
  ⟨demoProvider [artFlood], none,
   ⟨fun _ => "relevant", false, fun _ => rawEventTrue, false⟩, "sk-test"⟩

/-- Scenario B environment: three articles and a classifier backend that
replies with the literal string "irrelevant" for every article, exactly as
the classification prompt instructs it to do for non-relevant articles. -/
def envScenB : PipelineEnv :=
  ⟨demoProvider [artFlood, artSports, artQuake], none,
   ⟨fun _ => "irrelevant", false, fun _ => rawEventTrue, false⟩, "sk-test"⟩

/-- An environment with the API key absent (empty). -/
def envNoKey : PipelineEnv :=
  ⟨demoProvider [artFlood], none,
   ⟨fun _ => "relevant", false, fun _ => rawEventTrue, false⟩, ""⟩

/-- An environment whose provider call fails. -/
def envFetchFail : PipelineEnv :=
  ⟨fun _ _ => ProviderOutcome.failure, none,
   ⟨fun _ => "relevant", false, fun _ => rawEventTrue, false⟩, "sk-test"⟩

/-- An environment whose relevance batch call fails. -/
def envClassifyFail : PipelineEnv :=
  ⟨demoProvider [artFlood], none,
   ⟨fun _ => "relevant", true, fun _ => rawEventTrue, false⟩, "sk-test"⟩

/-- An environment whose extraction batch call fails. -/
def envExtractFail : PipelineEnv :=
  ⟨demoProvider [artFlood], none,
   ⟨fun _ => "relevant", false, fun _ => rawEventTrue, true⟩, "sk-test"⟩

/-! ### Helper lemmas -/

theorem zip_map_filter_map {α β : Type} (g : α → β) (p : β → Bool) :
    ∀ l : List α,
      ((l.zip (l.map g)).filter fun x => p x.2).map Prod.fst = l.filter fun a => p (g a)
  | [] => rfl
  | a :: tl => by
    simp only [List.map_cons, List.zip_cons_cons, List.filter_cons]
    by_cases h : p (g a) = true
    · simp [h, zip_map_filter_map g p tl]
    · simp [h, zip_map_filter_map g p tl]

theorem classify_relevance_eq_filter (backend : Backend) (articles : List Article) :
    classify_relevance backend articles =
      articles.filter fun a =>
        containsRelevant (backend.complete (CLASSIFY_RELEVANCE_PROMPT a.title a.summary)) :=
  zip_map_filter_map _ containsRelevant articles

theorem optionBatch_length {α β : Type} {f : α → Option β} :
    ∀ {l : List α} {r : List β}, optionBatch f l = some r → r.length = l.length
  | [], r, h => by
    simp only [optionBatch, Option.some.injEq] at h
    subst h; rfl
  | a :: tl, r, h => by
    simp only [optionBatch] at h
    cases hfa : f a with
    | none => rw [hfa] at h; exact absurd h (by simp)
    | some b =>
      rw [hfa] at h
      cases hbt : optionBatch f tl with
      | none => rw [hbt] at h; exact absurd h (by simp)
      | some bs =>
        rw [hbt] at h
        simp only [Option.some.injEq] at h
        subst h
        simp [optionBatch_length hbt]

theorem optionBatch_mem {α β : Type} {f : α → Option β} :
    ∀ {l : List α} {r : List β}, optionBatch f l = some r →
      ∀ b ∈ r, ∃ a ∈ l, f a = some b
  | [], r, h => by
    simp only [optionBatch, Option.some.injEq] at h
    subst h; intro b hb; exact absurd hb (by simp)
  | a :: tl, r, h => by
    simp only [optionBatch] at h
    cases hfa : f a with
    | none => rw [hfa] at h; exact absurd h (by simp)
    | some b0 =>
      rw [hfa] at h
      cases hbt : optionBatch f tl with
      | none => rw [hbt] at h; exact absurd h (by simp)
      | some bs =>
        rw [hbt] at h
        simp only [Option.some.injEq] at h
        subst h
        intro b hb
        rcases List.mem_cons.mp hb with hb | hb
        · exact ⟨a, by simp, hb ▸ hfa⟩
        · rcases optionBatch_mem hbt b hb with ⟨a', ha', hfa'⟩
          exact ⟨a', by simp [ha'], hfa'⟩

theorem get_llm_client_ok_of_key {apiKey : String} (h : apiKey ≠ "")
    (cacheLoaded : Bool) : get_llm_client cacheLoaded apiKey = Except.ok true := by
  cases cacheLoaded <;> simp [get_llm_client, h]

theorem validate_some_fields {raw : RawDisasterEvent} {e : DisasterEvent}
    (h : DisasterEvent.validate raw = some e) :
    raw.is_disaster_related = some e.is_disaster_related ∧
      raw.confidence = some e.confidence ∧ 0 ≤ e.confidence ∧ e.confidence ≤ 1 := by
  obtain ⟨t, f, d, lo, s, ed, ca, c, u⟩ := raw
  cases t <;> cases f <;> cases s <;> cases c <;>
    simp only [DisasterEvent.validate] at h
  all_goals try exact Option.noConfusion h
  rename_i tt ff ss cc
  by_cases hc : 0 ≤ cc ∧ cc ≤ 1
  · rw [if_pos hc] at h
    cases hlo : optionBatch Location.validate (lo.getD []) with
    | none => rw [hlo] at h; exact absurd h (by simp)
    | some locs =>
      rw [hlo] at h
      simp only [Option.some.injEq] at h
      subst h
      exact ⟨rfl, rfl, hc.1, hc.2⟩
  · rw [if_neg hc] at h
    exact absurd h (by simp)

theorem foldl_entityStep (l : List SpacyEnt) : ∀ acc : Entities,
    l.foldl entityStep acc =
      ⟨acc.locations ++ ((l.filter fun e => e.label = "GPE" ∨ e.label = "LOC").map SpacyEnt.text),
       acc.dates ++ ((l.filter fun e => e.label = "DATE").map SpacyEnt.text),
       acc.events ++ ((l.filter fun e => e.label = "EVENT").map SpacyEnt.text)⟩ := by
  induction l with
  | nil => intro acc; simp
  | cons e tl ih =>
    intro acc
    by_cases h1 : e.label = "GPE" ∨ e.label = "LOC"
    · have hd : ¬ e.label = "DATE" := by rcases h1 with h | h <;> simp [h]
      have hv : ¬ e.label = "EVENT" := by rcases h1 with h | h <;> simp [h]
      simp [entityStep, h1, hd, hv, ih, List.filter_cons]
    · by_cases h2 : e.label = "DATE"
      · have hv : ¬ e.label = "EVENT" := by simp [h2]
        simp [entityStep, h1, h2, hv, ih, List.filter_cons]
      · by_cases h3 : e.label = "EVENT"
        · simp [entityStep, h1, h2, h3, ih, List.filter_cons]
        · simp [entityStep, h1, h2, h3, ih, List.filter_cons]

theorem extraction_stage_length {backend : Backend} {nlp : Option Tagger}
    {relevant_articles : List Article} {events : List DisasterEvent}
    (h : extraction_stage backend nlp relevant_articles = some events) :
    events.length = relevant_articles.length := by
  have := optionBatch_length h
  simpa using this

theorem extraction_stage_flags {backend : Backend} {nlp : Option Tagger}
    {relevant_articles : List Article} {events : List DisasterEvent}
    (h : extraction_stage backend nlp relevant_articles = some events)
    (hall : ∀ prompt, (backend.extractStructured prompt).is_disaster_related = some false) :
    ∀ e ∈ events, e.is_disaster_related = false := by
  intro e he
  rcases optionBatch_mem h e he with ⟨raw, hrawmem, hval⟩
  rcases List.mem_map.mp hrawmem with ⟨prompt, _, hraw⟩
  have hflag := (validate_some_fields hval).1
  rw [← hraw, hall prompt] at hflag
  exact (Option.some.injEq _ _ ▸ hflag.symm)

theorem run_ok_mem_flag {env : PipelineEnv} {cacheLoaded : Bool} {query period : String}
    {max_results : ℕ} {l : List (DisasterEvent × Article)}
    (h : (run_news_analysis_pipeline env cacheLoaded query period max_results).result =
      Except.ok l) :
    ∀ pr ∈ l, pr.1.is_disaster_related = true := by
  simp only [run_news_analysis_pipeline] at h
  split at h
  · simp only [Except.ok.injEq] at h
    subst h; intro pr hpr; exact absurd hpr (by simp)
  · split at h
    · exact absurd h (by simp)
    · split at h
      · simp only [Except.ok.injEq] at h
        subst h; intro pr hpr; exact absurd hpr (by simp)
      · split at h
        · simp only [Except.ok.injEq] at h
          subst h; intro pr hpr; exact absurd hpr (by simp)
        · split at h
          · simp only [Except.ok.injEq] at h
            subst h; intro pr hpr; exact absurd hpr (by simp)
          · split at h
            · simp only [Except.ok.injEq] at h
              subst h; intro pr hpr; exact absurd hpr (by simp)
            · simp only [Except.ok.injEq] at h
              subst h
              intro pr hpr
              exact (List.mem_filter.mp hpr).2

theorem run_fetch_empty {env : PipelineEnv} {cacheLoaded : Bool} {query period : String}
    {max_results : ℕ}
    (hfe : fetch_disaster_news env.provider query period max_results = []) :
    (run_news_analysis_pipeline env cacheLoaded query period max_results).result =
      Except.ok [] := by
  simp [run_news_analysis_pipeline, hfe]

theorem run_classify_fails {env : PipelineEnv} {cacheLoaded : Bool} {query period : String}
    {max_results : ℕ}
    (hll : get_llm_client cacheLoaded env.apiKey = Except.ok true)
    (hcf : env.backend.classifyFails = true) :
    (run_news_analysis_pipeline env cacheLoaded query period max_results).result =
      Except.ok [] := by
  simp only [run_news_analysis_pipeline, hll, hcf]
  split <;> rfl

theorem run_extract_fails {env : PipelineEnv} {cacheLoaded : Bool} {query period : String}
    {max_results : ℕ}
    (hll : get_llm_client cacheLoaded env.apiKey = Except.ok true)
    (hef : env.backend.extractFails = true) :
    (run_news_analysis_pipeline env cacheLoaded query period max_results).result =
      Except.ok [] := by
  simp only [run_news_analysis_pipeline, hll]
  split
  · rfl
  · split
    · rfl
    · split
      · rfl
      · rfl

theorem run_extraction_none {env : PipelineEnv} {cacheLoaded : Bool} {query period : String}
    {max_results : ℕ}
    (hll : get_llm_client cacheLoaded env.apiKey = Except.ok true)
    (hex : extraction_stage env.backend env.nlp
        (classify_relevance env.backend
          (fetch_disaster_news env.provider query period max_results)) = none) :
    (run_news_analysis_pipeline env cacheLoaded query period max_results).result =
      Except.ok [] := by
  simp only [run_news_analysis_pipeline, hll]
  split
  · rfl
  · split
    · rfl
    · split
      · rfl
      · split
        · rfl
        · split
          · rfl
          · rename_i dev hsome
            rw [hex] at hsome
            exact Option.noConfusion hsome

theorem run_success_shape {env : PipelineEnv} {cacheLoaded : Bool} {query period : String}
    {max_results : ℕ} {events : List DisasterEvent}
    (hll : get_llm_client cacheLoaded env.apiKey = Except.ok true)
    (hcf : env.backend.classifyFails = false)
    (hef : env.backend.extractFails = false)
    (hex : extraction_stage env.backend env.nlp
        (classify_relevance env.backend
          (fetch_disaster_news env.provider query period max_results)) = some events) :
    (run_news_analysis_pipeline env cacheLoaded query period max_results).result =
      Except.ok ((events.zip (classify_relevance env.backend
          (fetch_disaster_news env.provider query period max_results))).filter
        fun p => p.1.is_disaster_related) := by
  simp only [run_news_analysis_pipeline, hll]
  split
  · rename_i hemp
    rw [List.isEmpty_iff] at hemp
    rw [hemp] at hex ⊢
    have hrel : classify_relevance env.backend ([] : List Article) = [] := rfl
    rw [hrel] at hex ⊢
    have hnil : extraction_stage env.backend env.nlp ([] : List Article) = some [] := rfl
    rw [hnil] at hex
    simp only [Option.some.injEq] at hex
    subst hex
    rfl
  · split
    · rename_i hcf2
      exact absurd hcf2 (by simp [hcf])
    · split
      · rename_i hrel
        rw [List.isEmpty_iff] at hrel
        rw [hrel] at hex ⊢
        have hnil : extraction_stage env.backend env.nlp ([] : List Article) = some [] := rfl
        rw [hnil] at hex
        simp only [Option.some.injEq] at hex
        subst hex
        rfl
      · split
        · rename_i hef2
          exact absurd hef2 (by simp [hef])
        · split
          · rename_i hnone
            rw [hex] at hnone
            exact Option.noConfusion hnone
          · rename_i dev hsome
            rw [hex] at hsome
            simp only [Option.some.injEq] at hsome
            subst hsome
            rfl

theorem run_key_missing {env : PipelineEnv} {query period : String} {max_results : ℕ}
    (hkey : env.apiKey = "")
    (hfe : fetch_disaster_news env.provider query period max_results ≠ []) :
    run_news_analysis_pipeline env false query period max_results =
      ⟨Except.error "Missing OPENAI_API_KEY in environment.", false,
        [NetworkCall.providerFetch]⟩ := by
  have hemp : (fetch_disaster_news env.provider query period max_results).isEmpty = false := by
    simpa [List.isEmpty_iff] using hfe
  simp [run_news_analysis_pipeline, hemp, get_llm_client, hkey]

theorem run_error_only_config {env : PipelineEnv} {cacheLoaded : Bool} {query period : String}
    {max_results : ℕ} {msg : String}
    (h : (run_news_analysis_pipeline env cacheLoaded query period max_results).result =
      Except.error msg) :
    env.apiKey = "" ∧ cacheLoaded = false ∧
      msg = "Missing OPENAI_API_KEY in environment." := by
  simp only [run_news_analysis_pipeline] at h
  split at h
  · exact absurd h (by simp)
  · split at h
    · rename_i e hll
      simp only [Except.error.injEq] at h
      subst h
      unfold get_llm_client at hll
      cases cacheLoaded with
      | true => exact absurd hll (by simp)
      | false =>
        by_cases hkey : env.apiKey = ""
        · rw [if_neg (by simp), if_pos hkey] at hll
          simp only [Except.error.injEq] at hll
          exact ⟨hkey, rfl, hll.symm⟩
        · rw [if_neg (by simp), if_neg hkey] at hll
          exact absurd hll (by simp)
    · split at h
      · exact absurd h (by simp)
      · split at h
        · exact absurd h (by simp)
        · split at h
          · exact absurd h (by simp)
          · split at h <;> exact absurd h (by simp)

theorem run_cache_false {env : PipelineEnv} {query period : String} {max_results : ℕ}
    (hkey : env.apiKey = "") :
    (run_news_analysis_pipeline env false query period max_results).cache = false := by
  simp only [run_news_analysis_pipeline]
  split
  · rfl
  · split
    · rfl
    · rename_i b hll
      simp [get_llm_client, hkey] at hll

theorem run_result_cache_irrelevant {env : PipelineEnv} (hkey : env.apiKey ≠ "")
    (c1 c2 : Bool) (query period : String) (max_results : ℕ) :
    (run_news_analysis_pipeline env c1 query period max_results).result =
      (run_news_analysis_pipeline env c2 query period max_results).result := by
  by_cases hemp : (fetch_disaster_news env.provider query period max_results).isEmpty = true
  · simp only [run_news_analysis_pipeline, if_pos hemp]
  · simp only [run_news_analysis_pipeline, if_neg hemp, get_llm_client_ok_of_key hkey]

/-! ### Claims -/

/-- C1: every `DisasterEvent` in the sequence returned by
`run_news_analysis_pipeline` satisfies `is_disaster_related = true`: events
failing the flag are discarded by the confirmation filter for every input
and backend behaviour, and when the extraction backend reports
`is_disaster_related=false` for every request the pipeline returns the
empty sequence. -/
theorem confirmation_only_disaster_related :
    (∀ (env : PipelineEnv) (cacheLoaded : Bool) (query period : String) (max_results : ℕ)
        (l : List (DisasterEvent × Article)),
      (run_news_analysis_pipeline env cacheLoaded query period max_results).result =
          Except.ok l →
        ∀ pr ∈ l, pr.1.is_disaster_related = true) ∧
    (∀ (env : PipelineEnv) (cacheLoaded : Bool) (query period : String) (max_results : ℕ),
      env.apiKey ≠ "" →
      (∀ prompt, (env.backend.extractStructured prompt).is_disaster_related = some false) →
      (run_news_analysis_pipeline env cacheLoaded query period max_results).result =
        Except.ok []) := by
  constructor
  · intro env cacheLoaded query period max_results l h
    exact run_ok_mem_flag h
  · intro env cacheLoaded query period max_results hkey hall
    have hll := get_llm_client_ok_of_key hkey cacheLoaded
    cases hcf : env.backend.classifyFails with
    | true => exact run_classify_fails hll hcf
    | false =>
      cases hef : env.backend.extractFails with
      | true => exact run_extract_fails hll hef
      | false =>
        cases hex : extraction_stage env.backend env.nlp
            (classify_relevance env.backend
              (fetch_disaster_news env.provider query period max_results)) with
        | none => exact run_extraction_none hll hex
        | some events =>
          rw [run_success_shape hll hcf hef hex]
          have hnil : (events.zip (classify_relevance env.backend
              (fetch_disaster_news env.provider query period max_results))).filter
                (fun p => p.1.is_disaster_related) = [] := by
            apply List.filter_eq_nil_iff.mpr
            rintro ⟨e, a⟩ hmem
            have he : e ∈ events := (List.of_mem_zip hmem).1
            simp [extraction_stage_flags hex hall e he]
          rw [hnil]

/-- C1 witness: on the scenario-D fixture the single returned pair has the
flag set, and on the scenario-C fixture (extraction backend reporting
`is_disaster_related=false` everywhere) the pipeline returns `[]`. -/
theorem confirmation_only_disaster_related_check :
    (∀ pr ∈ [(eventTrue, artFlood)], pr.1.is_disaster_related = true) ∧
    (run_news_analysis_pipeline envScenC false "flood" "7d" 10).result = Except.ok [] :=
  ⟨confirmation_only_disaster_related.1 envScenD false "flood" "7d" 10
      [(eventTrue, artFlood)] rfl,
   confirmation_only_disaster_related.2 envScenC false "flood" "7d" 10
      (by decide) (fun _ => rfl)⟩

/-- C2: when both batch calls succeed, the extraction stage yields exactly
one `DisasterEvent` per relevant article, and the pipeline returns the
confirmation filter of the positional pairing of those events with the
relevant-article subsequence, order preserved. -/
theorem extraction_one_per_relevant :
    ∀ (env : PipelineEnv) (cacheLoaded : Bool) (query period : String) (max_results : ℕ)
      (events : List DisasterEvent),
      env.apiKey ≠ "" →
      env.backend.classifyFails = false →
      env.backend.extractFails = false →
      extraction_stage env.backend env.nlp
          (classify_relevance env.backend
            (fetch_disaster_news env.provider query period max_results)) = some events →
      events.length = (classify_relevance env.backend
          (fetch_disaster_news env.provider query period max_results)).length ∧
      (run_news_analysis_pipeline env cacheLoaded query period max_results).result =
        Except.ok ((events.zip (classify_relevance env.backend
            (fetch_disaster_news env.provider query period max_results))).filter
          fun p => p.1.is_disaster_related) := by
  intro env cacheLoaded query period max_results events hkey hcf hef hex
  exact ⟨extraction_stage_length hex,
    run_success_shape (get_llm_client_ok_of_key hkey cacheLoaded) hcf hef hex⟩

/-- C2 witness: the scenario-D fixture yields one event for its one
relevant article and the pipeline output is the filtered pairing. -/
theorem extraction_one_per_relevant_check :
    ([eventTrue] : List DisasterEvent).length =
      (classify_relevance envScenD.backend
        (fetch_disaster_news envScenD.provider "flood" "7d" 10)).length ∧
    (run_news_analysis_pipeline envScenD false "flood" "7d" 10).result =
      Except.ok ((([eventTrue] : List DisasterEvent).zip
          (classify_relevance envScenD.backend
            (fetch_disaster_news envScenD.provider "flood" "7d" 10))).filter
        fun p => p.1.is_disaster_related) :=
  extraction_one_per_relevant envScenD false "flood" "7d" 10 [eventTrue]
    (by decide) rfl rfl rfl

/-- C3 (code bug): with three fetched articles and a classifier backend
replying the literal string "irrelevant" for each — the reply the
classification prompt itself prescribes for non-relevant articles — the
substring test `"relevant" in result.lower()` still succeeds, because
"relevant" is a substring of "irrelevant"; all three articles are marked
relevant, the extraction batch IS invoked, and the pipeline returns three
confirmed pairs instead of `[]`. -/
theorem irrelevant_reply_triggers_extraction :
    containsRelevant "irrelevant" = true ∧
    (run_news_analysis_pipeline envScenB false "flood" "7d" 10).calls =
      [NetworkCall.providerFetch, NetworkCall.classifyBatch, NetworkCall.extractBatch] ∧
    (run_news_analysis_pipeline envScenB false "flood" "7d" 10).result =
      Except.ok [(eventTrue, artFlood), (eventTrue, artSports), (eventTrue, artQuake)] :=
  ⟨by decide, rfl, rfl⟩

/-- C4: the relevance classifier stage returns an order-preserving
subsequence of its input, and an article belongs to it exactly when the
free-text backend reply to its prompt contains "relevant"
case-insensitively. -/
theorem classifier_subsequence_iff :
    ∀ (backend : Backend) (articles : List Article),
      List.Sublist (classify_relevance backend articles) articles ∧
      ∀ a : Article, a ∈ classify_relevance backend articles ↔
        a ∈ articles ∧
          containsRelevant (backend.complete
            (CLASSIFY_RELEVANCE_PROMPT a.title a.summary)) = true := by
  intro backend articles
  rw [classify_relevance_eq_filter]
  exact ⟨List.filter_sublist _, fun a => by simp [List.mem_filter]⟩

/-- C5: a structured response whose confidence lies outside `[0, 1]` (here
`3/2`, the `1.5` stub of the specification) fails `DisasterEvent`
validation, and every validated event carries the confidence of its raw
response unchanged (never clamped) with `0 ≤ confidence ≤ 1`. -/
theorem confidence_bounds_enforced :
    (∀ (raw : RawDisasterEvent) (e : DisasterEvent),
      DisasterEvent.validate raw = some e →
      raw.confidence = some e.confidence ∧ 0 ≤ e.confidence ∧ e.confidence ≤ 1) ∧
    DisasterEvent.validate overconfidentResponse = none := by
  constructor
  · intro raw e h
    exact (validate_some_fields h).2
  · norm_num [DisasterEvent.validate, overconfidentResponse]

/-- C5 witness: the well-formed response with confidence `1` validates and
its confidence is passed through within bounds. -/
theorem confidence_bounds_enforced_check :
    rawEventTrue.confidence = some eventTrue.confidence ∧
      0 ≤ eventTrue.confidence ∧ eventTrue.confidence ≤ 1 :=
  confidence_bounds_enforced.1 rawEventTrue eventTrue rfl

/-- C6 counterexample: with the API key absent and a provider returning
one article, the configuration error is raised only AFTER the provider
fetch has been issued (the call trace already contains the fetch when the
error surfaces), refuting "before any network activity takes place — in
particular before the provider fetch call is issued". -/
theorem config_error_after_fetch :
    (run_news_analysis_pipeline envNoKey false "flood" "7d" 10).result =
      Except.error "Missing OPENAI_API_KEY in environment." ∧
    (run_news_analysis_pipeline envNoKey false "flood" "7d" 10).calls =
      [NetworkCall.providerFetch] :=
  ⟨rfl, rfl⟩

/-- C6 amended: when the API key is absent, the pipeline raises the
configuration error before any language-model backend call but after the
provider fetch; and when the provider yields no articles the missing key
is never detected at all — the pipeline returns `[]`. -/
theorem config_error_fail_fast_amended :
    ∀ (env : PipelineEnv) (query period : String) (max_results : ℕ),
      env.apiKey = "" →
      (fetch_disaster_news env.provider query period max_results ≠ [] →
        run_news_analysis_pipeline env false query period max_results =
          ⟨Except.error "Missing OPENAI_API_KEY in environment.", false,
            [NetworkCall.providerFetch]⟩) ∧
      (fetch_disaster_news env.provider query period max_results = [] →
        (run_news_analysis_pipeline env false query period max_results).result =
          Except.ok []) := by
  intro env query period max_results hkey
  exact ⟨fun hne => run_key_missing hkey hne, fun he => run_fetch_empty he⟩

/-- C6 witness: the amended statement applied to the missing-key fixture. -/
theorem config_error_fail_fast_amended_check :
    run_news_analysis_pipeline envNoKey false "flood" "7d" 10 =
      ⟨Except.error "Missing OPENAI_API_KEY in environment.", false,
        [NetworkCall.providerFetch]⟩ :=
  (config_error_fail_fast_amended envNoKey "flood" "7d" 10 rfl).1 (by decide)

/-- C7: recoverable failures (provider fetch failure, empty provider
result, classification batch failure, extraction batch failure including
per-item schema violations) are absorbed at their stage boundary and the
pipeline returns the empty sequence; the only error that ever crosses the
entry point is the missing-API-key configuration error. -/
theorem failures_absorbed :
    (∀ (env : PipelineEnv) (cacheLoaded : Bool) (query period : String) (max_results : ℕ),
      env.provider query period = ProviderOutcome.failure →
      (run_news_analysis_pipeline env cacheLoaded query period max_results).result =
        Except.ok []) ∧
    (∀ (env : PipelineEnv) (cacheLoaded : Bool) (query period : String) (max_results : ℕ),
      fetch_disaster_news env.provider query period max_results = [] →
      (run_news_analysis_pipeline env cacheLoaded query period max_results).result =
        Except.ok []) ∧
    (∀ (env : PipelineEnv) (cacheLoaded : Bool) (query period : String) (max_results : ℕ),
      env.apiKey ≠ "" → env.backend.classifyFails = true →
      (run_news_analysis_pipeline env cacheLoaded query period max_results).result =
        Except.ok []) ∧
    (∀ (env : PipelineEnv) (cacheLoaded : Bool) (query period : String) (max_results : ℕ),
      env.apiKey ≠ "" → env.backend.extractFails = true →
      (run_news_analysis_pipeline env cacheLoaded query period max_results).result =
        Except.ok []) ∧
    (∀ (env : PipelineEnv) (cacheLoaded : Bool) (query period : String) (max_results : ℕ),
      env.apiKey ≠ "" →
      extraction_stage env.backend env.nlp
          (classify_relevance env.backend
            (fetch_disaster_news env.provider query period max_results)) = none →
      (run_news_analysis_pipeline env cacheLoaded query period max_results).result =
        Except.ok []) ∧
    (∀ (env : PipelineEnv) (cacheLoaded : Bool) (query period : String) (max_results : ℕ)
        (msg : String),
      (run_news_analysis_pipeline env cacheLoaded query period max_results).result =
        Except.error msg →
      env.apiKey = "" ∧ cacheLoaded = false ∧
        msg = "Missing OPENAI_API_KEY in environment.") := by
  refine ⟨?_, ?_, ?_, ?_, ?_, ?_⟩
  · intro env cacheLoaded query period max_results hpf
    exact run_fetch_empty (by simp [fetch_disaster_news, hpf])
  · intro env cacheLoaded query period max_results hfe
    exact run_fetch_empty hfe
  · intro env cacheLoaded query period max_results hkey hcf
    exact run_classify_fails (get_llm_client_ok_of_key hkey cacheLoaded) hcf
  · intro env cacheLoaded query period max_results hkey hef
    exact run_extract_fails (get_llm_client_ok_of_key hkey cacheLoaded) hef
  · intro env cacheLoaded query period max_results hkey hex
    exact run_extraction_none (get_llm_client_ok_of_key hkey cacheLoaded) hex
  · intro env cacheLoaded query period max_results msg h
    exact run_error_only_config h

/-- C7 witness: fetch failure, classification failure and extraction
failure each yield `[]` on the concrete fixtures, and the missing-key run
produces exactly the configuration error. -/
theorem failures_absorbed_check :
    (run_news_analysis_pipeline envFetchFail false "flood" "7d" 10).result = Except.ok [] ∧
    (run_news_analysis_pipeline envClassifyFail false "flood" "7d" 10).result =
      Except.ok [] ∧
    (run_news_analysis_pipeline envExtractFail false "flood" "7d" 10).result =
      Except.ok [] ∧
    (envNoKey.apiKey = "" ∧ false = false ∧
      "Missing OPENAI_API_KEY in environment." = "Missing OPENAI_API_KEY in environment.") :=
  ⟨failures_absorbed.1 envFetchFail false "flood" "7d" 10 rfl,
   failures_absorbed.2.2.1 envClassifyFail false "flood" "7d" 10 (by decide) rfl,
   failures_absorbed.2.2.2.1 envExtractFail false "flood" "7d" 10 (by decide) rfl,
   failures_absorbed.2.2.2.2.2 envNoKey false "flood" "7d" 10
     "Missing OPENAI_API_KEY in environment." rfl⟩

/-- C8: the entity-augmentation step is a total function returning a
mapping with exactly the keys `locations`, `dates`, `events`: when the
tagger is unavailable all three are empty, and when it is available each
key holds exactly the texts of the entities with the matching labels, in
document order. -/
theorem entity_augmentation_total :
    (∀ text : String, extract_entities_from_text none text = ⟨[], [], []⟩) ∧
    (∀ (tagger : Tagger) (text : String),
      extract_entities_from_text (some tagger) text =
        ⟨(((tagger.ents text).filter fun e =>
            e.label = "GPE" ∨ e.label = "LOC").map SpacyEnt.text),
         (((tagger.ents text).filter fun e => e.label = "DATE").map SpacyEnt.text),
         (((tagger.ents text).filter fun e => e.label = "EVENT").map SpacyEnt.text)⟩) := by
  constructor
  · intro text; rfl
  · intro tagger text
    have h := foldl_entityStep (tagger.ents text) ⟨[], [], []⟩
    simpa [extract_entities_from_text] using h

/-- C9: with a frozen provider, tagger and deterministic stubbed backend,
a second invocation of the pipeline entry point (with the client-cache
state left behind by the first) returns the same result, for the same
query, period and max_results — the pipeline is a deterministic function
of its inputs and backend replies. -/
theorem pipeline_idempotent :
    ∀ (env : PipelineEnv) (query period : String) (max_results : ℕ),
      (run_news_analysis_pipeline env
          (run_news_analysis_pipeline env false query period max_results).cache
          query period max_results).result =
        (run_news_analysis_pipeline env false query period max_results).result := by
  intro env query period max_results
  by_cases hkey : env.apiKey = ""
  · rw [run_cache_false hkey]
  · exact run_result_cache_irrelevant hkey _ false query period max_results

/-- C10: `DisasterEvent` validation requires `title`,
`is_disaster_related`, `summary` and `confidence`; a response lacking any
of them is rejected, while all of `disaster_type`, `locations`,
`event_date`, `casualties` and `source_url` may be absent and the record
still validates, `locations` defaulting to the empty list. -/
theorem schema_required_and_optional_fields :
    (∀ raw : RawDisasterEvent, raw.title = none → DisasterEvent.validate raw = none) ∧
    (∀ raw : RawDisasterEvent, raw.is_disaster_related = none →
      DisasterEvent.validate raw = none) ∧
    (∀ raw : RawDisasterEvent, raw.summary = none → DisasterEvent.validate raw = none) ∧
    (∀ raw : RawDisasterEvent, raw.confidence = none → DisasterEvent.validate raw = none) ∧
    (∀ (t : String) (flag : Bool) (s : String) (c : ℚ), 0 ≤ c → c ≤ 1 →
      DisasterEvent.validate ⟨some t, some flag, none, none, some s, none, none, some c, none⟩ =
        some ⟨t, flag, none, [], s, none, none, c, none⟩) := by
  refine ⟨?_, ?_, ?_, ?_, ?_⟩
  · intro raw h
    obtain ⟨t, f, d, lo, s, ed, ca, c, u⟩ := raw
    cases t with
    | some tv => exact Option.noConfusion h
    | none => cases f <;> cases s <;> cases c <;> rfl
  · intro raw h
    obtain ⟨t, f, d, lo, s, ed, ca, c, u⟩ := raw
    cases f with
    | some fv => exact Option.noConfusion h
    | none => cases t <;> cases s <;> cases c <;> rfl
  · intro raw h
    obtain ⟨t, f, d, lo, s, ed, ca, c, u⟩ := raw
    cases s with
    | some sv => exact Option.noConfusion h
    | none => cases t <;> cases f <;> cases c <;> rfl
  · intro raw h
    obtain ⟨t, f, d, lo, s, ed, ca, c, u⟩ := raw
    cases c with
    | some cv => exact Option.noConfusion h
    | none => cases t <;> cases f <;> cases s <;> rfl
  · intro t flag s c h0 h1
    simp [DisasterEvent.validate, optionBatch, h0, h1]

/-- C10 witness: a response missing only `title` is rejected, and the
minimal response carrying only the four required fields validates with
`locations = []` and all optional fields `none`. -/
theorem schema_required_and_optional_fields_check :
    DisasterEvent.validate ⟨none, some true, none, none, some "s", none, none, some 1, none⟩ =
      none ∧
    DisasterEvent.validate
        ⟨some "t", some true, none, none, some "s", none, none, some 1, none⟩ =
      some ⟨"t", true, none, [], "s", none, none, 1, none⟩ :=
  ⟨schema_required_and_optional_fields.1 _ rfl,
   schema_required_and_optional_fields.2.2.2.2 "t" true "s" 1 (by decide) (by decide)⟩

end EoDisaster
